import Mathlib

/-!
# Wii-Linux: GPIO bit-banging I2C adapter core and Hollywood EHCI probe

A shallow embedding of

* `drivers/i2c/busses/i2c-gpio-common.c`: the four signal primitives handed
  to the bit-bang engine, `i2c_gpio_adapter_probe` and
  `i2c_gpio_adapter_remove`;
* `drivers/usb/host/ehci-hlwd.c`: `ehci_hcd_hlwd_probe`.

C `int` values are `Int`.  Calls into the rest of the kernel (allocation,
GPIO lookup, bus registration, OF helpers, ...) are answered by an explicit
record of outcomes, and every such call is appended to an event log, so that
"was never attempted" and "exactly once" are statements about the log.
-/

/-! ## Error numbers (include/uapi/asm-generic/errno-base.h) -/

/-- Out of memory. -/
def ENOMEM : Int := 12
/-- Device or resource busy. -/
def EBUSY : Int := 16
/-- No such device. -/
def ENODEV : Int := 19
/-- Invalid argument. -/
def EINVAL : Int := 22

namespace I2cGpio

/-! ## Line handles -/

/-- Direction of a pin. -/
inductive Direction
  | input
  | output
  deriving DecidableEq, Repr

/-- Modelled from the spec: the Line Handle of section 3 (the GPIO consumer
API behind `struct gpio_desc` is not part of the two source files).  A line
has a current direction, a current driven value (meaningful only when the
direction is output) and the logical level currently observed on the wire,
which the outside world (pull-up, peer device, test bench) determines. -/
structure Line where
  direction : Direction
  value : Int
  level : Int
  deriving DecidableEq, Repr

/-- The value the pin actively drives: none while it is an input. -/
def Line.driven (l : Line) : Option Int :=
  match l.direction with
  | .input => none
  | .output => some l.value

/-- Modelled from the spec: set-direction (input) of a Line Handle. -/
def gpiod_direction_input (l : Line) : Line :=
  { l with direction := .input }

/-- Modelled from the spec: set-direction (output, with an initial value) of
a Line Handle. -/
def gpiod_direction_output (l : Line) (v : Int) : Line :=
  { l with direction := .output, value := v }

/-- Modelled from the spec: set-logic-level of a Line Handle; it writes the
output register and does not touch the direction. -/
def gpiod_set_value (l : Line) (v : Int) : Line :=
  { l with value := v }

/-- Modelled from the spec: get-logic-level of a Line Handle; the level
observed on the wire, read without side effect. -/
def gpiod_get_value (l : Line) : Int :=
  l.level

/-! ## The descriptor and the four signal primitives -/

/-- The three static setters of the file, as function-pointer values. -/
inductive Setter
  | i2c_gpio_setsda_dir
  | i2c_gpio_setsda_val
  | i2c_gpio_setscl_val
  deriving DecidableEq, Repr

/-- The two static getters of the file, as function-pointer values. -/
inductive Getter
  | i2c_gpio_getsda
  | i2c_gpio_getscl
  deriving DecidableEq, Repr

/-- The fields of `struct i2c_algo_bit_data` that the probe fills.  A field
still zero from `devm_kzalloc` would be a null pointer; the probe fills all
of them at once, so the record exists only filled.  The back-reference
`data = desc` is the enclosing descriptor. -/
structure i2c_algo_bit_data where
  setsda : Setter
  setscl : Setter
  getsda : Getter
  getscl : Getter
  udelay : Int
  timeout : Int
  deriving DecidableEq, Repr

/-- The part of `struct i2c_gpio_desc` the signal primitives work on: the
two line handles. -/
structure i2c_gpio_desc where
  sda : Line
  scl : Line
  deriving DecidableEq, Repr

/-- Toggle SDA by changing the direction of the pin. -/
def i2c_gpio_setsda_dir (desc : i2c_gpio_desc) (state : Int) : i2c_gpio_desc :=
  if state ≠ 0 then
    { desc with sda := gpiod_direction_input desc.sda }
  else
    { desc with sda := gpiod_direction_output desc.sda 0 }

/-- Toggle SDA by changing the output value of the pin. -/
def i2c_gpio_setsda_val (desc : i2c_gpio_desc) (state : Int) : i2c_gpio_desc :=
  { desc with sda := gpiod_set_value desc.sda state }

/-- Toggle SCL by changing the output value of the pin. -/
def i2c_gpio_setscl_val (desc : i2c_gpio_desc) (state : Int) : i2c_gpio_desc :=
  { desc with scl := gpiod_set_value desc.scl state }

/-- Read SDA; returns the level and the (untouched) descriptor state. -/
def i2c_gpio_getsda (desc : i2c_gpio_desc) : Int × i2c_gpio_desc :=
  (gpiod_get_value desc.sda, desc)

/-- Read SCL; returns the level and the (untouched) descriptor state. -/
def i2c_gpio_getscl (desc : i2c_gpio_desc) : Int × i2c_gpio_desc :=
  (gpiod_get_value desc.scl, desc)

/-- Calling a setter through its function pointer. -/
def Setter.call : Setter → i2c_gpio_desc → Int → i2c_gpio_desc
  | .i2c_gpio_setsda_dir => I2cGpio.i2c_gpio_setsda_dir
  | .i2c_gpio_setsda_val => I2cGpio.i2c_gpio_setsda_val
  | .i2c_gpio_setscl_val => I2cGpio.i2c_gpio_setscl_val

/-- Calling a getter through its function pointer. -/
def Getter.call : Getter → i2c_gpio_desc → Int × i2c_gpio_desc
  | .i2c_gpio_getsda => I2cGpio.i2c_gpio_getsda
  | .i2c_gpio_getscl => I2cGpio.i2c_gpio_getscl

/-- A run of `set_clock` calls made by the engine, oldest first. -/
def setscl_seq (desc : i2c_gpio_desc) (levels : List Int) : i2c_gpio_desc :=
  levels.foldl i2c_gpio_setscl_val desc

/-! ## The device and the platform calls of the lifecycle -/

/-- The connection id under which a line is looked up. -/
inductive Role
  | sda
  | scl
  deriving DecidableEq, Repr

/-- The request flags of `devm_gpiod_get` (include/linux/gpio/consumer.h). -/
inductive gpiod_flags
  | GPIOD_ASIS
  | GPIOD_IN
  | GPIOD_OUT_LOW
  | GPIOD_OUT_HIGH
  deriving DecidableEq, Repr

/-- Modelled from the spec: the direction contract of a line request (the
flag semantics live in the GPIO library, outside the two source files):
as-is leaves the line in the state it was found in, the others initialise
the direction (and, for an output, the driven value, low or high). -/
def gpiod_flags.configure : gpiod_flags → Line → Line
  | .GPIOD_ASIS, l => l
  | .GPIOD_IN, l => gpiod_direction_input l
  | .GPIOD_OUT_LOW, l => gpiod_direction_output l 0
  | .GPIOD_OUT_HIGH, l => gpiod_direction_output l 1

/-- An entry of the managed-resource list of a device: what a `devm_` call
obtained on the device's behalf. -/
inductive Managed
  | mem
  | line (con_id : Role)
  deriving DecidableEq, Repr

/-- The calls the lifecycle makes into the platform, as logged. -/
inductive Event
  | devm_kzalloc
  | devm_gpiod_get (con_id : Role) (flags : gpiod_flags)
  | i2c_bit_add_numbered_bus
  | i2c_del_adapter
  deriving DecidableEq, Repr

/-- The device as the lifecycle sees it: its two pins, which lines are
currently acquired, its managed-resource list, whether its bus instance is
registered, and the log of platform calls (oldest first). -/
structure Device where
  sda : Line
  scl : Line
  held : List Role
  devres : List Managed
  registered : Bool
  log : List Event
  deriving DecidableEq, Repr

/-- A device nothing has been done to yet. -/
def Device.fresh (sda scl : Line) : Device :=
  { sda := sda, scl := scl, held := [], devres := [], registered := false, log := [] }

/-- The pin behind a connection id. -/
def Device.pin (dev : Device) : Role → Line
  | .sda => dev.sda
  | .scl => dev.scl

/-- Replace the pin behind a connection id. -/
def Device.setPin (dev : Device) : Role → Line → Device
  | .sda, l => { dev with sda := l }
  | .scl, l => { dev with scl := l }

/-- An error pointer `ERR_PTR(-errno)`: `IS_ERR` holds exactly for the
addresses that encode an error number between 1 and `MAX_ERRNO` = 4095
(include/linux/err.h). -/
structure ErrPtr where
  errno : Nat
  pos : 0 < errno
  le_max : errno ≤ 4095

/-- The error value carried by an error pointer; always negative. -/
def PTR_ERR (e : ErrPtr) : Int :=
  -(e.errno : Int)

/-- The outcomes of the platform calls, fixed in advance (the injected
failure points), and the tick rate `HZ` of the kernel configuration (ticks
per second, a positive compile-time constant of the kernel build).
`gpiod_get r = none` is a valid handle, `some e` is an error pointer;
`add_bus` is the return value of `i2c_bit_add_numbered_bus`. -/
structure Platform where
  kzalloc_ok : Bool
  gpiod_get : Role → Option ErrPtr
  add_bus : Int
  HZ : Nat

/-- Modelled from the spec: allocation of the internal descriptor
(`devm_kzalloc` is outside the two source files): logged; it can fail for
lack of memory; on success the block is device-managed, as the `devm_`
prefix says, and joins the managed list.  Returns whether the pointer is
non-null. -/
def devm_kzalloc (p : Platform) (dev : Device) : Bool × Device :=
  let dev := { dev with log := dev.log ++ [Event.devm_kzalloc] }
  if p.kzalloc_ok then
    (true, { dev with devres := dev.devres ++ [Managed.mem] })
  else
    (false, dev)

/-- Modelled from the spec: acquisition of a line by role from the platform
pin facility (`devm_gpiod_get` is outside the two source files): logged; on
success the line is configured per the flags, becomes held, is
device-managed, as the `devm_` prefix says, and joins the managed list, and
its handle is returned; on failure nothing is acquired and the error of the
`ERR_PTR` is returned. -/
def devm_gpiod_get (p : Platform) (dev : Device) (con_id : Role) (flags : gpiod_flags) :
    Except Int Line × Device :=
  let dev := { dev with log := dev.log ++ [Event.devm_gpiod_get con_id flags] }
  match p.gpiod_get con_id with
  | some e => (.error (PTR_ERR e), dev)
  | none =>
    let l := flags.configure (dev.pin con_id)
    let dev := dev.setPin con_id l
    (.ok l, { dev with held := dev.held ++ [con_id],
                       devres := dev.devres ++ [Managed.line con_id] })

/-- Modelled from the spec: registration of the bus instance with the
bit-bang engine (`i2c_bit_add_numbered_bus` is outside the two source
files): logged; the bus instance is registered exactly when the call
returns 0, and a rejected instance is not left visible. -/
def i2c_bit_add_numbered_bus (p : Platform) (dev : Device) : Int × Device :=
  let dev := { dev with log := dev.log ++ [Event.i2c_bit_add_numbered_bus] }
  (p.add_bus, { dev with registered := decide (p.add_bus = 0) })

/-- Modelled from the spec: deregistration of the bus instance
(`i2c_del_adapter` is outside the two source files): logged; the bus
instance is no longer registered. -/
def i2c_del_adapter (dev : Device) : Device :=
  { dev with log := dev.log ++ [Event.i2c_del_adapter], registered := false }

/-- The fields of `struct i2c_adapter` the probe writes.  `algo_data` points
into the descriptor, so it is given as the descriptor's lines together with
its `bit_data`. -/
structure i2c_adapter where
  algo_data : Option (i2c_gpio_desc × i2c_algo_bit_data)
  parent_set : Bool
  name : String
  deriving DecidableEq, Repr

/-- An adapter the probe has not touched. -/
def i2c_adapter.blank : i2c_adapter :=
  { algo_data := none, parent_set := false, name := "" }

/-- What a call of the probe leaves behind: its return value, the device and
the adapter. -/
structure ProbeResult where
  ret : Int
  dev : Device
  adap : i2c_adapter
  deriving DecidableEq, Repr

/-- The probe `i2c_gpio_adapter_probe(adap, dev)`. -/
def i2c_gpio_adapter_probe (p : Platform) (adap : i2c_adapter) (dev : Device) : ProbeResult :=
  match devm_kzalloc p dev with
  | (false, dev) => { ret := -ENOMEM, dev := dev, adap := adap }
  | (true, dev) =>
    match devm_gpiod_get p dev .sda .GPIOD_ASIS with
    | (.error e, dev) => { ret := e, dev := dev, adap := adap }
    | (.ok sda, dev) =>
      match devm_gpiod_get p dev .scl .GPIOD_ASIS with
      | (.error e, dev) => { ret := e, dev := dev, adap := adap }
      | (.ok scl, dev) =>
        let bit_data : i2c_algo_bit_data :=
          { setsda := .i2c_gpio_setsda_val
            setscl := .i2c_gpio_setscl_val
            getsda := .i2c_gpio_getsda
            getscl := .i2c_gpio_getscl
            udelay := 5
            timeout := ((p.HZ / 10 : Nat) : Int) }
        let adap : i2c_adapter :=
          { algo_data := some ({ sda := sda, scl := scl }, bit_data)
            parent_set := true
            name := "i2c-gpio" }
        let (r, dev) := i2c_bit_add_numbered_bus p dev
        { ret := r, dev := dev, adap := adap }

/-- The teardown `i2c_gpio_adapter_remove(adap)`. -/
def i2c_gpio_adapter_remove (dev : Device) : Int × Device :=
  let dev := i2c_del_adapter dev
  (0, dev)

/-! ## Concrete inputs -/

/-- A pin in its reset state: an input, nothing latched, wire pulled high. -/
def pinIdle : Line :=
  { direction := .input, value := 0, level := 1 }

/-- A pin left as an output driving high. -/
def pinHigh : Line :=
  { direction := .output, value := 1, level := 1 }

/-- The error pointer `ERR_PTR(-ENOENT)`: no such line described. -/
def errNoent : ErrPtr :=
  { errno := 2, pos := by decide, le_max := by decide }

/-- Every platform call succeeds; `HZ` is 100. -/
def platOk : Platform :=
  { kzalloc_ok := true, gpiod_get := fun _ => none, add_bus := 0, HZ := 100 }

/-- The descriptor allocation fails. -/
def platNoMem : Platform :=
  { platOk with kzalloc_ok := false }

/-- The data line cannot be acquired. -/
def platNoSda : Platform :=
  { platOk with gpiod_get := fun c => match c with | .sda => some errNoent | .scl => none }

/-- The clock line cannot be acquired. -/
def platNoScl : Platform :=
  { platOk with gpiod_get := fun c => match c with | .sda => none | .scl => some errNoent }

/-- Bus registration is refused with `-EBUSY`. -/
def platNoBus : Platform :=
  { platOk with add_bus := -EBUSY }

/-- Every platform call succeeds on a kernel built with `HZ` = 1024. -/
def platHz1024 : Platform :=
  { platOk with HZ := 1024 }

/-- The probe called once on a device nothing has been done to yet, with an
untouched adapter. -/
def probeFresh (p : Platform) (sda scl : Line) : ProbeResult :=
  i2c_gpio_adapter_probe p i2c_adapter.blank (Device.fresh sda scl)

end I2cGpio

namespace EhciHlwd

/-- The value `irq_of_parse_and_map` returns when no interrupt could be
mapped (0 on powerpc, the only architecture of this controller). -/
def NO_IRQ : Nat := 0

/-- The calls of the probe that obtain or release something, as logged.  A
call that can fail carries its outcome. -/
inductive Event
  | of_address_to_resource (ret : Int)
  | usb_create_hcd (ok : Bool)
  | of_reserved_mem_device_init (ret : Int)
  | irq_of_parse_and_map (virq : Nat)
  | ioremap (ok : Bool)
  | usb_add_hcd (ret : Int)
  | iounmap
  | irq_dispose_mapping
  | of_reserved_mem_device_release
  | usb_put_hcd
  deriving DecidableEq, Repr

/-- The outcomes of the steps of the probe, fixed in advance: whether USB is
disabled, the three boolean properties of the device node, and what each
platform call returns (`create_hcd` and `regs_mapped`: the pointer is
non-null). -/
structure Platform where
  usb_disabled : Bool
  big_endian_regs : Bool
  big_endian_desc : Bool
  big_endian : Bool
  address_to_resource : Int
  create_hcd : Bool
  reserved_mem_init : Int
  virq : Nat
  regs_mapped : Bool
  add_hcd : Int
  deriving DecidableEq, Repr

/-- What a call of the probe leaves behind: its return value and the log of
calls (oldest first). -/
structure ProbeResult where
  ret : Int
  log : List Event
  deriving DecidableEq, Repr

/-- Label `out`. -/
def out (error : Int) (log : List Event) : ProbeResult :=
  { ret := error, log := log }

/-- Label `err_irq`, falling through to `out`. -/
def err_irq (error : Int) (log : List Event) : ProbeResult :=
  out error (log ++ [Event.of_reserved_mem_device_release, Event.usb_put_hcd])

/-- Label `err_ioremap`, falling through to `err_irq`. -/
def err_ioremap (error : Int) (log : List Event) : ProbeResult :=
  err_irq error (log ++ [Event.irq_dispose_mapping])

/-- The probe `ehci_hcd_hlwd_probe(op)`. -/
def ehci_hcd_hlwd_probe (p : Platform) : ProbeResult :=
  let error : Int := -ENODEV
  let log : List Event := []
  if p.usb_disabled then out error log
  else if !p.big_endian_regs || p.big_endian_desc || p.big_endian then
    let error : Int := -EINVAL
    out error log
  else
    let error := p.address_to_resource
    let log := log ++ [Event.of_address_to_resource error]
    if error ≠ 0 then out error log
    else
      let log := log ++ [Event.usb_create_hcd p.create_hcd]
      if !p.create_hcd then
        let error : Int := -ENOMEM
        out error log
      else
        let error := p.reserved_mem_init
        let log := log ++ [Event.of_reserved_mem_device_init error]
        let irq := p.virq
        let log := log ++ [Event.irq_of_parse_and_map irq]
        if irq = NO_IRQ then
          let error : Int := -EBUSY
          err_irq error log
        else
          let log := log ++ [Event.ioremap p.regs_mapped]
          if !p.regs_mapped then
            let error : Int := -EBUSY
            err_ioremap error log
          else
            let error := p.add_hcd
            let log := log ++ [Event.usb_add_hcd error]
            if error = 0 then { ret := 0, log := log }
            else err_ioremap error (log ++ [Event.iounmap])

/-- Every step succeeds. -/
def platOk : Platform :=
  { usb_disabled := false, big_endian_regs := true, big_endian_desc := false,
    big_endian := false, address_to_resource := 0, create_hcd := true,
    reserved_mem_init := 0, virq := 31, regs_mapped := true, add_hcd := 0 }

/-- The device node also carries the property big-endian-desc. -/
def platBadEndian : Platform :=
  { platOk with big_endian_desc := true }

/-- The final step `usb_add_hcd` fails with `-ENOMEM`. -/
def platAddFails : Platform :=
  { platOk with add_hcd := -ENOMEM }

/-- The register window cannot be mapped. -/
def platNoRegs : Platform :=
  { platOk with regs_mapped := false }

/-- USB is disabled (the nousb boot option) and the device node also carries
the property big-endian-desc. -/
def platUsbOffBadEndian : Platform :=
  { platOk with usb_disabled := true, big_endian_desc := true }

end EhciHlwd

namespace I2cGpio

/-! ## Signal primitives -/

/-- C4: under the direction-switching setter, whatever the data line was
before, level 1 leaves it an input that drives nothing, level 0 leaves it an
output driving 0, every non-zero level behaves as level 1, and the clock
line is not touched. -/
theorem setsda_dir_levels (desc : i2c_gpio_desc) :
    (i2c_gpio_setsda_dir desc 1).sda.direction = Direction.input ∧
    (i2c_gpio_setsda_dir desc 1).sda.driven = none ∧
    (i2c_gpio_setsda_dir desc 0).sda.direction = Direction.output ∧
    (i2c_gpio_setsda_dir desc 0).sda.value = 0 ∧
    (i2c_gpio_setsda_dir desc 0).sda.driven = some 0 ∧
    (∀ state : Int, state ≠ 0 → i2c_gpio_setsda_dir desc state = i2c_gpio_setsda_dir desc 1) ∧
    (∀ state : Int, (i2c_gpio_setsda_dir desc state).scl = desc.scl) := by
  refine ⟨rfl, rfl, rfl, rfl, rfl, ?_, ?_⟩
  · intro state h
    simp [i2c_gpio_setsda_dir, h]
  · intro state
    unfold i2c_gpio_setsda_dir
    split <;> rfl

/-- C4, at a line that was an output driving high: level 7 makes it an
input, exactly as level 1 does. -/
theorem setsda_dir_levels_witness :
    i2c_gpio_setsda_dir { sda := pinHigh, scl := pinIdle } 7
      = i2c_gpio_setsda_dir { sda := pinHigh, scl := pinIdle } 1 ∧
    (i2c_gpio_setsda_dir { sda := pinHigh, scl := pinIdle } 7).sda.driven = none :=
  ⟨(setsda_dir_levels { sda := pinHigh, scl := pinIdle }).2.2.2.2.2.1 7 (by decide), by decide⟩

/-- Writing the clock value twice is the same as writing the last value. -/
theorem setscl_val_absorb (desc : i2c_gpio_desc) (a b : Int) :
    i2c_gpio_setscl_val (i2c_gpio_setscl_val desc a) b = i2c_gpio_setscl_val desc b := rfl

/-- A run of clock writes that ends with a given level equals that single
write. -/
theorem setscl_seq_snoc (levels : List Int) (desc : i2c_gpio_desc) (level : Int) :
    setscl_seq desc (levels ++ [level]) = i2c_gpio_setscl_val desc level := by
  induction levels generalizing desc with
  | nil => rfl
  | cons a rest ih =>
    have h := ih (i2c_gpio_setscl_val desc a)
    simp only [setscl_seq, List.cons_append, List.foldl_cons] at h ⊢
    rw [h, setscl_val_absorb]

/-- C5: for every level and every prior state, set_clock leaves the clock
line output value equal to the level; calling it twice with the same level
gives the same state as calling it once; and after any sequence of set_clock
calls the clock value is the level of the last call, whatever the earlier
calls and the prior state were. -/
theorem setscl_val_last_write (desc : i2c_gpio_desc) (level : Int) (levels : List Int) :
    (i2c_gpio_setscl_val desc level).scl.value = level ∧
    i2c_gpio_setscl_val (i2c_gpio_setscl_val desc level) level
      = i2c_gpio_setscl_val desc level ∧
    (setscl_seq desc (levels ++ [level])).scl.value = level ∧
    (∀ (other : i2c_gpio_desc) (earlier : List Int),
      (setscl_seq other (earlier ++ [level])).scl.value
        = (setscl_seq desc (levels ++ [level])).scl.value) := by
  refine ⟨rfl, rfl, ?_, ?_⟩
  · rw [setscl_seq_snoc]; rfl
  · intro other earlier
    rw [setscl_seq_snoc, setscl_seq_snoc]; rfl

/-- C6: for every level applied from outside to the data (clock) line,
get_data (get_clock) returns exactly that level; each getter reads the line
of its own role and ignores the other line; and neither changes the state
of the two lines. -/
theorem getters_return_line_level (desc : i2c_gpio_desc) (l : Int) :
    (i2c_gpio_getsda { desc with sda := { desc.sda with level := l } }).1 = l ∧
    (i2c_gpio_getscl { desc with scl := { desc.scl with level := l } }).1 = l ∧
    (i2c_gpio_getsda desc).1 = desc.sda.level ∧
    (i2c_gpio_getscl desc).1 = desc.scl.level ∧
    (∀ scl : Line, (i2c_gpio_getsda { desc with scl := scl }).1 = (i2c_gpio_getsda desc).1) ∧
    (∀ sda : Line, (i2c_gpio_getscl { desc with sda := sda }).1 = (i2c_gpio_getscl desc).1) ∧
    (i2c_gpio_getsda desc).2 = desc ∧
    (i2c_gpio_getscl desc).2 = desc :=
  ⟨rfl, rfl, rfl, rfl, fun _ => rfl, fun _ => rfl, rfl, rfl⟩

/-! ## Setup -/

/-- The error carried by an error pointer is never 0. -/
theorem PTR_ERR_ne_zero (e : ErrPtr) : PTR_ERR e ≠ 0 := by
  have := e.pos
  unfold PTR_ERR
  omega

/-- C1, refuted as stated: when the clock line cannot be acquired the call
returns an error, yet the data line acquired before it is still held when
the call returns. -/
theorem probe_scl_failure_sda_still_held :
    (probeFresh platNoScl pinIdle pinIdle).ret ≠ 0 ∧
    (probeFresh platNoScl pinIdle pinIdle).dev.held = [Role.sda] ∧
    ¬ (((probeFresh platNoScl pinIdle pinIdle).ret = 0 ∧
          (probeFresh platNoScl pinIdle pinIdle).dev.held = [Role.sda, Role.scl] ∧
          (probeFresh platNoScl pinIdle pinIdle).dev.registered = true) ∨
       ((probeFresh platNoScl pinIdle pinIdle).ret ≠ 0 ∧
          (probeFresh platNoScl pinIdle pinIdle).dev.held = [] ∧
          (probeFresh platNoScl pinIdle pinIdle).dev.registered = false)) := by
  decide

/-- C1, amended: for every failure point, either the call returns 0 with both
lines held and the bus registered, or it returns an error with no bus
registered and nothing released by the call: no line is held after an
allocation or data-line failure, the data line is still held after a
clock-line failure, both lines are still held after a registration failure,
and every line still held is on the managed-resource list of the device. -/
theorem probe_success_or_managed (p : Platform) (sda scl : Line) :
    ((probeFresh p sda scl).ret = 0 ∧
      (probeFresh p sda scl).dev.held = [Role.sda, Role.scl] ∧
      (probeFresh p sda scl).dev.registered = true) ∨
    ((probeFresh p sda scl).ret ≠ 0 ∧
      (probeFresh p sda scl).dev.registered = false ∧
      (∀ c ∈ (probeFresh p sda scl).dev.held,
        Managed.line c ∈ (probeFresh p sda scl).dev.devres) ∧
      ((p.kzalloc_ok = false ∧ (probeFresh p sda scl).dev.held = []) ∨
       (p.kzalloc_ok = true ∧ (p.gpiod_get Role.sda).isSome = true ∧
          (probeFresh p sda scl).dev.held = []) ∨
       (p.kzalloc_ok = true ∧ p.gpiod_get Role.sda = none ∧
          (p.gpiod_get Role.scl).isSome = true ∧
          (probeFresh p sda scl).dev.held = [Role.sda]) ∨
       (p.kzalloc_ok = true ∧ p.gpiod_get Role.sda = none ∧
          p.gpiod_get Role.scl = none ∧ p.add_bus ≠ 0 ∧
          (probeFresh p sda scl).dev.held = [Role.sda, Role.scl]))) := by
  obtain ⟨k, g, ab, hz⟩ := p
  cases k
  · right
    simp [probeFresh, i2c_gpio_adapter_probe, devm_kzalloc, Device.fresh, ENOMEM]
  · cases hs : g Role.sda with
    | some e =>
      right
      simp [probeFresh, i2c_gpio_adapter_probe, devm_kzalloc, devm_gpiod_get, Device.fresh,
        hs, PTR_ERR_ne_zero]
    | none =>
      cases hc : g Role.scl with
      | some e =>
        right
        simp [probeFresh, i2c_gpio_adapter_probe, devm_kzalloc, devm_gpiod_get, Device.fresh,
          Device.setPin, hs, hc, PTR_ERR_ne_zero]
      | none =>
        by_cases hab : ab = 0
        · left
          simp [probeFresh, i2c_gpio_adapter_probe, devm_kzalloc, devm_gpiod_get,
            i2c_bit_add_numbered_bus, Device.fresh, Device.setPin, hs, hc, hab]
        · right
          simp [probeFresh, i2c_gpio_adapter_probe, devm_kzalloc, devm_gpiod_get,
            i2c_bit_add_numbered_bus, Device.fresh, Device.setPin, hs, hc, hab]

/-- C7: the probe returns -ENOMEM when the descriptor allocation fails, and
then no line acquisition is attempted; otherwise the error of the data line
when its acquisition fails, and then the clock line is never attempted;
otherwise the error of the clock line when its acquisition fails, and then
registration is never attempted; otherwise exactly the value that
i2c_bit_add_numbered_bus returns, success or failure. -/
theorem probe_return_value (p : Platform) (sda scl : Line) :
    (p.kzalloc_ok = false →
      (probeFresh p sda scl).ret = -ENOMEM ∧
      (probeFresh p sda scl).dev.log = [Event.devm_kzalloc]) ∧
    (∀ e : ErrPtr, p.kzalloc_ok = true → p.gpiod_get Role.sda = some e →
      (probeFresh p sda scl).ret = PTR_ERR e ∧
      (probeFresh p sda scl).dev.log
        = [Event.devm_kzalloc, Event.devm_gpiod_get Role.sda gpiod_flags.GPIOD_ASIS]) ∧
    (∀ e : ErrPtr, p.kzalloc_ok = true → p.gpiod_get Role.sda = none →
      p.gpiod_get Role.scl = some e →
      (probeFresh p sda scl).ret = PTR_ERR e ∧
      (probeFresh p sda scl).dev.log
        = [Event.devm_kzalloc, Event.devm_gpiod_get Role.sda gpiod_flags.GPIOD_ASIS,
            Event.devm_gpiod_get Role.scl gpiod_flags.GPIOD_ASIS]) ∧
    (p.kzalloc_ok = true → p.gpiod_get Role.sda = none → p.gpiod_get Role.scl = none →
      (probeFresh p sda scl).ret = p.add_bus ∧
      (probeFresh p sda scl).dev.log
        = [Event.devm_kzalloc, Event.devm_gpiod_get Role.sda gpiod_flags.GPIOD_ASIS,
            Event.devm_gpiod_get Role.scl gpiod_flags.GPIOD_ASIS,
            Event.i2c_bit_add_numbered_bus]) := by
  obtain ⟨k, g, ab, hz⟩ := p
  refine ⟨?_, ?_, ?_, ?_⟩
  · intro hk
    simp only at hk
    subst hk
    simp [probeFresh, i2c_gpio_adapter_probe, devm_kzalloc, Device.fresh]
  · intro e hk hs
    simp only at hk hs
    subst hk
    simp [probeFresh, i2c_gpio_adapter_probe, devm_kzalloc, devm_gpiod_get, Device.fresh, hs]
  · intro e hk hs hc
    simp only at hk hs hc
    subst hk
    simp [probeFresh, i2c_gpio_adapter_probe, devm_kzalloc, devm_gpiod_get, Device.fresh,
      Device.setPin, hs, hc]
  · intro hk hs hc
    simp only at hk hs hc
    subst hk
    simp [probeFresh, i2c_gpio_adapter_probe, devm_kzalloc, devm_gpiod_get,
      i2c_bit_add_numbered_bus, Device.fresh, Device.setPin, hs, hc]

/-- C7, at one run per failure point and a refused registration: the return
values are -ENOMEM, -2 (data line), -2 (clock line) and -EBUSY as returned
by the registration. -/
theorem probe_return_value_witness :
    (probeFresh platNoMem pinIdle pinIdle).ret = -ENOMEM ∧
    (probeFresh platNoSda pinIdle pinIdle).ret = -2 ∧
    (probeFresh platNoScl pinIdle pinIdle).ret = -2 ∧
    (probeFresh platNoBus pinIdle pinIdle).ret = -EBUSY :=
  ⟨((probe_return_value platNoMem pinIdle pinIdle).1 rfl).1,
    ((probe_return_value platNoSda pinIdle pinIdle).2.1 errNoent rfl rfl).1,
    ((probe_return_value platNoScl pinIdle pinIdle).2.2.1 errNoent rfl rfl rfl).1,
    ((probe_return_value platNoBus pinIdle pinIdle).2.2.2 rfl rfl rfl).1⟩

/-- C8, refuted as stated: on a kernel built with 1024 ticks per second the
probe stores a timeout of 102 ticks, and ten times that is 1020, not 1024. -/
theorem probe_timeout_hz1024 :
    (probeFresh platHz1024 pinIdle pinIdle).adap.algo_data.map (fun a => a.2.timeout)
      = some 102 ∧
    ¬ ((probeFresh platHz1024 pinIdle pinIdle).adap.algo_data.map
        (fun a => 10 * a.2.timeout) = some ((platHz1024.HZ : Nat) : Int)) := by
  decide

/-- C8, amended: once both lines are acquired the configuration record has
udelay 5 and timeout HZ / 10 rounded down to whole ticks: ten times the
timeout is at most HZ and misses it by fewer than ten ticks, and it equals
HZ exactly when HZ is a multiple of ten. -/
theorem probe_timing_defaults (p : Platform) (sda scl : Line)
    (hk : p.kzalloc_ok = true) (hs : p.gpiod_get Role.sda = none)
    (hc : p.gpiod_get Role.scl = none) :
    ∃ desc bit_data, (probeFresh p sda scl).adap.algo_data = some (desc, bit_data) ∧
      bit_data.udelay = 5 ∧
      bit_data.timeout = ((p.HZ / 10 : Nat) : Int) ∧
      10 * bit_data.timeout ≤ (p.HZ : Int) ∧
      (p.HZ : Int) < 10 * bit_data.timeout + 10 ∧
      (10 * bit_data.timeout = (p.HZ : Int) ↔ 10 ∣ p.HZ) := by
  obtain ⟨k, g, ab, hz⟩ := p
  simp only at hk hs hc
  subst hk
  refine ⟨{ sda := sda, scl := scl },
    { setsda := Setter.i2c_gpio_setsda_val, setscl := Setter.i2c_gpio_setscl_val,
      getsda := Getter.i2c_gpio_getsda, getscl := Getter.i2c_gpio_getscl,
      udelay := 5, timeout := ((hz / 10 : Nat) : Int) }, ?_, rfl, rfl, ?_, ?_, ?_⟩
  · simp [probeFresh, i2c_gpio_adapter_probe, devm_kzalloc, devm_gpiod_get,
      i2c_bit_add_numbered_bus, Device.fresh, Device.setPin, Device.pin,
      gpiod_flags.configure, hs, hc]
  · simp only
    omega
  · simp only
    omega
  · simp only
    omega

/-- C8 amended, on a kernel built with 1024 ticks per second. -/
theorem probe_timing_defaults_witness :
    ∃ desc bit_data,
      (probeFresh platHz1024 pinIdle pinIdle).adap.algo_data = some (desc, bit_data) ∧
      bit_data.udelay = 5 ∧
      bit_data.timeout = ((platHz1024.HZ / 10 : Nat) : Int) ∧
      10 * bit_data.timeout ≤ (platHz1024.HZ : Int) ∧
      (platHz1024.HZ : Int) < 10 * bit_data.timeout + 10 ∧
      (10 * bit_data.timeout = (platHz1024.HZ : Int) ↔ 10 ∣ platHz1024.HZ) :=
  probe_timing_defaults platHz1024 pinIdle pinIdle rfl rfl rfl

/-- C3, the code at a device whose two pins are inputs and whose platform
calls all succeed: the probe returns 0 and the record handed to the engine
has the value-writing setter for the data line, not the direction-switching
one; through it set_data(0) leaves the data line an input that drives
nothing, where the direction-switching setter would drive it low. -/
theorem probe_installs_setsda_val :
    (probeFresh platOk pinIdle pinIdle).ret = 0 ∧
    (probeFresh platOk pinIdle pinIdle).adap.algo_data.map (fun a => a.2.setsda)
      = some Setter.i2c_gpio_setsda_val ∧
    (probeFresh platOk pinIdle pinIdle).adap.algo_data.map (fun a => a.2.setscl)
      = some Setter.i2c_gpio_setscl_val ∧
    (probeFresh platOk pinIdle pinIdle).adap.algo_data.map
        (fun a => (a.2.setsda.call a.1 0).sda.driven) = some none ∧
    (probeFresh platOk pinIdle pinIdle).adap.algo_data.map
        (fun a => (Setter.i2c_gpio_setsda_dir.call a.1 0).sda.driven) = some (some 0) := by
  decide

/-- C9, the code at a device whose clock pin is an input before the probe
and whose platform calls all succeed: the probe returns 0, it has requested
both lines as-is, and the clock line is still an input that drives nothing,
not an output driven low. -/
theorem probe_requests_scl_asis :
    (probeFresh platOk pinHigh pinIdle).ret = 0 ∧
    (probeFresh platOk pinHigh pinIdle).dev.log
      = [Event.devm_kzalloc, Event.devm_gpiod_get Role.sda gpiod_flags.GPIOD_ASIS,
          Event.devm_gpiod_get Role.scl gpiod_flags.GPIOD_ASIS,
          Event.i2c_bit_add_numbered_bus] ∧
    (probeFresh platOk pinHigh pinIdle).dev.sda = pinHigh ∧
    (probeFresh platOk pinHigh pinIdle).dev.scl.direction = Direction.input ∧
    (probeFresh platOk pinHigh pinIdle).adap.algo_data.map (fun a => a.1.scl.direction)
      = some Direction.input ∧
    (probeFresh platOk pinHigh pinIdle).adap.algo_data.map (fun a => a.1.scl.driven)
      = some none := by
  decide

/-! ## Teardown -/

/-- C2, refuted as stated: after a successful probe, teardown returns with
the bus deregistered but both lines still held. -/
theorem remove_lines_still_held :
    (probeFresh platOk pinIdle pinIdle).ret = 0 ∧
    (i2c_gpio_adapter_remove (probeFresh platOk pinIdle pinIdle).dev).2.held
      = [Role.sda, Role.scl] ∧
    ¬ ((i2c_gpio_adapter_remove (probeFresh platOk pinIdle pinIdle).dev).2.registered = false ∧
        (i2c_gpio_adapter_remove (probeFresh platOk pinIdle pinIdle).dev).2.held = []) := by
  decide

/-- C2, amended: for every successfully set-up bus, teardown returns 0 after
one platform call, the deregistration of the bus instance, which is the only
deregistration in the life of the device; it releases no line itself: after
it returns the bus is not registered and both lines are still held, on the
managed-resource list of the device, which teardown leaves as it was. -/
theorem remove_deregisters_once (p : Platform) (sda scl : Line)
    (h : (probeFresh p sda scl).ret = 0) :
    (probeFresh p sda scl).dev.registered = true ∧
    (i2c_gpio_adapter_remove (probeFresh p sda scl).dev).1 = 0 ∧
    (i2c_gpio_adapter_remove (probeFresh p sda scl).dev).2.log
      = (probeFresh p sda scl).dev.log ++ [Event.i2c_del_adapter] ∧
    (i2c_gpio_adapter_remove (probeFresh p sda scl).dev).2.log.count Event.i2c_del_adapter = 1 ∧
    (i2c_gpio_adapter_remove (probeFresh p sda scl).dev).2.registered = false ∧
    (i2c_gpio_adapter_remove (probeFresh p sda scl).dev).2.held = [Role.sda, Role.scl] ∧
    (i2c_gpio_adapter_remove (probeFresh p sda scl).dev).2.devres
      = (probeFresh p sda scl).dev.devres ∧
    (∀ c ∈ (i2c_gpio_adapter_remove (probeFresh p sda scl).dev).2.held,
      Managed.line c ∈ (i2c_gpio_adapter_remove (probeFresh p sda scl).dev).2.devres) := by
  obtain ⟨k, g, ab, hz⟩ := p
  cases k
  · simp [probeFresh, i2c_gpio_adapter_probe, devm_kzalloc, Device.fresh, ENOMEM] at h
  · cases hs : g Role.sda with
    | some e =>
      simp [probeFresh, i2c_gpio_adapter_probe, devm_kzalloc, devm_gpiod_get, Device.fresh,
        hs, PTR_ERR_ne_zero] at h
    | none =>
      cases hc : g Role.scl with
      | some e =>
        simp [probeFresh, i2c_gpio_adapter_probe, devm_kzalloc, devm_gpiod_get, Device.fresh,
          Device.setPin, hs, hc, PTR_ERR_ne_zero] at h
      | none =>
        simp [probeFresh, i2c_gpio_adapter_probe, devm_kzalloc, devm_gpiod_get,
          i2c_bit_add_numbered_bus, Device.fresh, Device.setPin, hs, hc] at h
        subst h
        simp [probeFresh, i2c_gpio_adapter_probe, devm_kzalloc, devm_gpiod_get,
          i2c_bit_add_numbered_bus, i2c_gpio_adapter_remove, i2c_del_adapter, Device.fresh,
          Device.setPin, hs, hc]

/-- C2 amended, at a device whose platform calls all succeed. -/
theorem remove_deregisters_once_witness :
    (probeFresh platOk pinIdle pinIdle).ret = 0 ∧
    (i2c_gpio_adapter_remove (probeFresh platOk pinIdle pinIdle).dev).2.log.count
      Event.i2c_del_adapter = 1 ∧
    (i2c_gpio_adapter_remove (probeFresh platOk pinIdle pinIdle).dev).2.registered = false ∧
    (i2c_gpio_adapter_remove (probeFresh platOk pinIdle pinIdle).dev).2.held
      = [Role.sda, Role.scl] :=
  ⟨by decide,
    (remove_deregisters_once platOk pinIdle pinIdle (by decide)).2.2.2.1,
    (remove_deregisters_once platOk pinIdle pinIdle (by decide)).2.2.2.2.1,
    (remove_deregisters_once platOk pinIdle pinIdle (by decide)).2.2.2.2.2.1⟩

end I2cGpio

namespace EhciHlwd

/-- C10, refuted as stated: with USB disabled and a device node that fails
the endian-property check (it carries big-endian-desc), the probe returns
-ENODEV, not -EINVAL; it leaves at the USB test, before the properties are
read, and makes no platform call. -/
theorem probe_usb_disabled_bad_endian :
    platUsbOffBadEndian.usb_disabled = true ∧
    platUsbOffBadEndian.big_endian_desc = true ∧
    (ehci_hcd_hlwd_probe platUsbOffBadEndian).ret = -ENODEV ∧
    (ehci_hcd_hlwd_probe platUsbOffBadEndian).log = [] ∧
    ¬ ((ehci_hcd_hlwd_probe platUsbOffBadEndian).ret = -EINVAL) := by
  decide

/-- C10, amended: the EHCI probe returns 0 exactly when USB is enabled, the
node has big-endian-regs and neither big-endian-desc nor big-endian, and
address lookup, controller creation, interrupt mapping, register mapping and
usb_add_hcd all succeed; when USB is enabled and the endian-property check
fails it returns -EINVAL, and when USB is disabled it returns -ENODEV
whatever the properties are; on every failure after the controller object
was created the register mapping is unmapped once iff it was mapped, the
interrupt mapping is disposed once iff it was mapped, and the controller
reference is dropped once (as is the reserved memory); on success none of
them is released. -/
theorem probe_result_and_unwind (p : Platform) :
    ((ehci_hcd_hlwd_probe p).ret = 0 ↔
      (p.usb_disabled = false ∧ p.big_endian_regs = true ∧ p.big_endian_desc = false ∧
        p.big_endian = false ∧ p.address_to_resource = 0 ∧ p.create_hcd = true ∧
        p.virq ≠ NO_IRQ ∧ p.regs_mapped = true ∧ p.add_hcd = 0)) ∧
    (p.usb_disabled = false →
      (p.big_endian_regs = false ∨ p.big_endian_desc = true ∨ p.big_endian = true) →
      (ehci_hcd_hlwd_probe p).ret = -EINVAL) ∧
    (Event.usb_create_hcd true ∈ (ehci_hcd_hlwd_probe p).log →
      (ehci_hcd_hlwd_probe p).ret ≠ 0 →
      (ehci_hcd_hlwd_probe p).log.count Event.iounmap
          = (if Event.ioremap true ∈ (ehci_hcd_hlwd_probe p).log then 1 else 0) ∧
      (ehci_hcd_hlwd_probe p).log.count Event.irq_dispose_mapping
          = (if p.virq ≠ NO_IRQ then 1 else 0) ∧
      (ehci_hcd_hlwd_probe p).log.count Event.usb_put_hcd = 1 ∧
      (ehci_hcd_hlwd_probe p).log.count Event.of_reserved_mem_device_release = 1) ∧
    ((ehci_hcd_hlwd_probe p).ret = 0 →
      (ehci_hcd_hlwd_probe p).log.count Event.iounmap = 0 ∧
      (ehci_hcd_hlwd_probe p).log.count Event.irq_dispose_mapping = 0 ∧
      (ehci_hcd_hlwd_probe p).log.count Event.usb_put_hcd = 0 ∧
      (ehci_hcd_hlwd_probe p).log.count Event.of_reserved_mem_device_release = 0) ∧
    (p.usb_disabled = true →
      (ehci_hcd_hlwd_probe p).ret = -ENODEV ∧ (ehci_hcd_hlwd_probe p).log = []) := by
  obtain ⟨ud, ber, bed, be, ar, ch, rm, vq, rg, ah⟩ := p
  cases ud <;> cases ber <;> cases bed <;> cases be <;>
    simp [ehci_hcd_hlwd_probe, out, err_irq, err_ioremap, ENODEV, EINVAL]
  by_cases har : ar = 0
  · cases ch
    · simp [har, ENOMEM]
    · by_cases hv : vq = NO_IRQ
      · simp [har, hv, EBUSY]
      · cases rg
        · simp [har, hv, EBUSY]
        · by_cases hah : ah = 0
          · simp [har, hv, hah]
          · simp [har, hv, hah]
  · simp [har]

/-- C10 amended, at five concrete runs: every step succeeds (returns 0,
nothing released); the node also has big-endian-desc (returns -EINVAL); the
register window cannot be mapped (only the interrupt mapping and the
controller reference are released); usb_add_hcd fails (all three released
once); USB is disabled and the node has big-endian-desc (returns -ENODEV). -/
theorem probe_result_and_unwind_witness :
    ((ehci_hcd_hlwd_probe platOk).ret = 0 ∧
      (ehci_hcd_hlwd_probe platOk).log.count Event.iounmap = 0 ∧
      (ehci_hcd_hlwd_probe platOk).log.count Event.irq_dispose_mapping = 0 ∧
      (ehci_hcd_hlwd_probe platOk).log.count Event.usb_put_hcd = 0 ∧
      (ehci_hcd_hlwd_probe platOk).log.count Event.of_reserved_mem_device_release = 0) ∧
    (ehci_hcd_hlwd_probe platBadEndian).ret = -EINVAL ∧
    ((ehci_hcd_hlwd_probe platNoRegs).log.count Event.iounmap = 0 ∧
      (ehci_hcd_hlwd_probe platNoRegs).log.count Event.irq_dispose_mapping = 1 ∧
      (ehci_hcd_hlwd_probe platNoRegs).log.count Event.usb_put_hcd = 1 ∧
      (ehci_hcd_hlwd_probe platNoRegs).log.count Event.of_reserved_mem_device_release = 1) ∧
    ((ehci_hcd_hlwd_probe platAddFails).log.count Event.iounmap = 1 ∧
      (ehci_hcd_hlwd_probe platAddFails).log.count Event.irq_dispose_mapping = 1 ∧
      (ehci_hcd_hlwd_probe platAddFails).log.count Event.usb_put_hcd = 1 ∧
      (ehci_hcd_hlwd_probe platAddFails).log.count Event.of_reserved_mem_device_release = 1) ∧
    (ehci_hcd_hlwd_probe platUsbOffBadEndian).ret = -ENODEV :=
  ⟨⟨(probe_result_and_unwind platOk).1.2 (by decide),
      (probe_result_and_unwind platOk).2.2.2.1 (by decide)⟩,
    (probe_result_and_unwind platBadEndian).2.1 rfl (Or.inr (Or.inl rfl)),
    (probe_result_and_unwind platNoRegs).2.2.1 (by decide) (by decide),
    (probe_result_and_unwind platAddFails).2.2.1 (by decide) (by decide),
    ((probe_result_and_unwind platUsbOffBadEndian).2.2.2.2 rfl).1⟩

end EhciHlwd
